import Mathlib

/-!
Verification of the gbpx / gbp-helper transactional repository mutation
engine against its natural-language specification.

The definitions below are a shallow embedding of the Python sources:
  src/gbpx/gitutil.py   (version utilities, repository adapter)
  src/gbpx/gbpxutil.py  (temp-commit manager, snapshot store, config loader)
  src/gbpx/gbpx.py      (action execution engine)
Pure string manipulation is translated directly; the stateful git
operations are translated as explicit state passing over an abstract
repository state, and fallible code returns `Except`.  String splitting,
stripping and joining are implemented structurally on character lists so
that every definition evaluates inside the kernel.
-/

namespace Gbpx

/-! ### Python exception taxonomy

Mirrors the error classes of ioutil.py / gitutil.py / gbpxutil.py.
`CommandError`, `GitError`, `ConfigError` and `OpError` all derive from the
module-level `Error` class; `ValueError` is a Python builtin that does NOT
derive from `Error`, so `except Error` clauses in the source do not catch it.
-/
inductive PyErr where
  | gitError
  | commandError
  | configError
  | opError
  | valueError
  deriving Repr, DecidableEq

instance [DecidableEq ε] [DecidableEq α] : DecidableEq (Except ε α) := fun a b =>
  match a, b with
  | .ok x, .ok y =>
    if h : x = y then .isTrue (by simp [h]) else .isFalse (by simp [h])
  | .error x, .error y =>
    if h : x = y then .isTrue (by simp [h]) else .isFalse (by simp [h])
  | .ok _, .error _ => .isFalse (by simp)
  | .error _, .ok _ => .isFalse (by simp)

/-- Is the exception an instance of the module base class `Error`
(ioutil.py line 14)?  `ValueError` is not. -/
def PyErr.isModuleError : PyErr → Bool
  | .valueError => false
  | _ => true

/-! ### Python string primitives used by the sources

All separators split on by the sources are single characters, so string
splitting is modelled for a single-character separator.
-/

/-- Auxiliary for `pySplit`: the accumulator holds the current field
reversed. -/
def pySplitAux (sep : Char) : List Char → List Char → List String
  | [], cur => [String.mk cur.reverse]
  | c :: cs, cur =>
    if c = sep then String.mk cur.reverse :: pySplitAux sep cs []
    else pySplitAux sep cs (c :: cur)

/-- Python `s.split(sep)` for a one-character separator: fields between
occurrences of `sep`, with empty fields kept (`"".split(sep) == [""]`). -/
def pySplit (s : String) (sep : Char) : List String :=
  pySplitAux sep s.data []

/-- Python `str.join`, structurally. -/
def pyJoin (sep : String) : List String → String
  | [] => ""
  | [x] => x
  | x :: xs => x ++ sep ++ pyJoin sep xs

/-- Python `s.split(sep, 1)`: split at the first occurrence of `sep` only. -/
def pySplit1 (s : String) (sep : Char) : List String :=
  match pySplit s sep with
  | [] => [s]
  | [x] => [x]
  | x :: rest => [x, pyJoin (String.mk [sep]) rest]

/-- Whitespace recognised by Python `str.strip()` (ASCII portion). -/
def isPySpace (c : Char) : Bool :=
  c = ' ' ∨ c = '\t' ∨ c = '\n' ∨ c = '\r' ∨ c = '\x0b' ∨ c = '\x0c'

/-- Python `s.strip()`. -/
def pyStrip (s : String) : String :=
  String.mk (((s.data.dropWhile isPySpace).reverse.dropWhile isPySpace).reverse)

/-- Python `int(s)` for a string: strips surrounding whitespace, accepts an
optional sign followed by a nonempty digit run; anything else raises
`ValueError`, modelled as `none`. -/
def pyInt (s : String) : Option Int :=
  let cs := (pyStrip s).data
  let signed : Bool × List Char :=
    match cs with
    | c :: rest =>
      if c = '-' then (true, rest)
      else if c = '+' then (false, rest)
      else (false, cs)
    | [] => (false, [])
  let digits := signed.2
  if digits ≠ [] ∧ digits.all Char.isDigit then
    let n : Nat := digits.foldl (fun acc d => acc * 10 + (d.toNat - 48)) 0
    some (if signed.1 then -(n : Int) else (n : Int))
  else
    none

/-! ### Version utilities (gitutil.py 155-185, identical in gbputil.py) -/

/-- Embeds `get_next_version` (gitutil.py lines 172-185).  The source splits
the version on `'~'` (only), increments the last dot-separated component of
the part before the split with Python `int`, and rejoins with `'-'` before
the suffix.  A failing `int` conversion raises `ValueError`, which the
`except Error` clause does not catch, so it propagates unclassified. -/
def get_next_version (version : String) : Except PyErr String :=
  let base_part := pySplit1 version '~'
  let ver_part := pySplit (base_part.headD "") '.'
  match pyInt (ver_part.getLastD "") with
  | none => .error .valueError
  | some n =>
    let ver_part2 := ver_part.dropLast ++ [toString (n + 1)]
    .ok (pyJoin "." ver_part2 ++
      (if base_part.length > 1 then "-" ++ base_part.getD 1 "" else ""))

/-- Maximal digit runs of a character list, with an accumulator holding the
current run reversed.  Models Python `re.findall(r'\d+', s)`. -/
def digitRunsAux : List Char → List Char → List String
  | [], cur => if cur = [] then [] else [String.mk cur.reverse]
  | c :: cs, cur =>
    if c.isDigit then digitRunsAux cs (c :: cur)
    else if cur = [] then digitRunsAux cs []
    else String.mk cur.reverse :: digitRunsAux cs []

/-- Python `re.findall(r'\d+', s)`: the maximal digit runs of `s`. -/
def findallDigits (s : String) : List String :=
  digitRunsAux s.data []

/-- Three-way comparison on `Nat`. -/
def natCmp (a b : Nat) : Ordering :=
  if a < b then .lt else if b < a then .gt else .eq

/-- Three-way comparison on `Int`. -/
def intCmp (a b : Int) : Ordering :=
  if a < b then .lt else if b < a then .gt else .eq

/-- Python comparison of two characters (by code point). -/
def charCmp (a b : Char) : Ordering :=
  natCmp a.toNat b.toNat

/-- Python lexicographic comparison of two lists, element comparison given
by `c`; a strict prefix sorts first. -/
def listCmp (c : α → α → Ordering) : List α → List α → Ordering
  | [], [] => .eq
  | [], _ :: _ => .lt
  | _ :: _, [] => .gt
  | a :: as, b :: bs =>
    match c a b with
    | .eq => listCmp c as bs
    | o => o

/-- Python comparison of two strings (lexicographic by code point). -/
def strCmp (a b : String) : Ordering :=
  listCmp charCmp a.data b.data

/-- The sort key of `compare_versions`: lists of digit-run STRINGS, compared
lexicographically (Python compares `findall` results, which are strings). -/
def versionKeyCmp (a b : List String) : Ordering :=
  listCmp strCmp a b

/-- Embeds `compare_versions` (gitutil.py lines 160-169).  The source sorts
`[ver1, ver2]` with `key=lambda s: findall(r'\d+', s)` — a stable sort of a
two-element list, which swaps exactly when the second key is strictly below
the first — then returns 0 when the strings are equal, -1 when `ver1` ends
up first, and 1 otherwise. -/
def compare_versions (ver1 ver2 : String) : Int :=
  let sorted :=
    if versionKeyCmp (findallDigits ver2) (findallDigits ver1) = .lt then
      [ver2, ver1]
    else
      [ver1, ver2]
  if ver1 = ver2 then 0
  else if sorted.headD "" = ver1 then -1
  else 1

/-- Embeds `is_version_lt` (gitutil.py lines 155-157). -/
def is_version_lt (ver1 ver2 : String) : Bool :=
  compare_versions ver1 ver2 < 0

/-- Spec-side definition for claim C3: the claim reads the digit runs as
INTEGER sequences.  Written from the spec words, to be compared with the
source's string-keyed behavior. -/
def digitRunsAsInts (s : String) : List Int :=
  (findallDigits s).map (fun r => (pyInt r).getD 0)

/-! ### Order lemmas for the comparison primitives -/

theorem natCmp_eq_iff (a b : Nat) : natCmp a b = .eq ↔ a = b := by
  unfold natCmp
  split
  · constructor
    · intro h; cases h
    · omega
  · split
    · constructor
      · intro h; cases h
      · omega
    · constructor
      · intro _; omega
      · intro _; rfl

theorem natCmp_lt_iff_gt (a b : Nat) : natCmp a b = .lt ↔ natCmp b a = .gt := by
  unfold natCmp
  split <;> split <;> simp_all <;> omega

theorem intCmp_eq_iff (a b : Int) : intCmp a b = .eq ↔ a = b := by
  unfold intCmp
  split
  · constructor
    · intro h; cases h
    · omega
  · split
    · constructor
      · intro h; cases h
      · omega
    · constructor
      · intro _; omega
      · intro _; rfl

theorem intCmp_lt_iff_gt (a b : Int) : intCmp a b = .lt ↔ intCmp b a = .gt := by
  unfold intCmp
  split <;> split <;> simp_all <;> omega

theorem intCmp_lt_trans (a b c : Int) (h1 : intCmp a b = .lt)
    (h2 : intCmp b c = .lt) : intCmp a c = .lt := by
  unfold intCmp at *
  split at h1 <;> split at h2 <;> simp_all <;> omega

theorem charCmp_eq_iff (a b : Char) : charCmp a b = .eq ↔ a = b := by
  unfold charCmp
  rw [natCmp_eq_iff]
  constructor
  · intro h; exact Char.eq_of_val_eq (UInt32.ext h)
  · intro h; rw [h]

theorem charCmp_lt_iff_gt (a b : Char) : charCmp a b = .lt ↔ charCmp b a = .gt := by
  unfold charCmp
  exact natCmp_lt_iff_gt _ _

theorem listCmp_eq_iff (c : α → α → Ordering)
    (hc : ∀ a b, c a b = .eq ↔ a = b) :
    ∀ x y, listCmp c x y = .eq ↔ x = y
  | [], [] => by simp [listCmp]
  | [], _ :: _ => by simp [listCmp]
  | _ :: _, [] => by simp [listCmp]
  | a :: as, b :: bs => by
    simp only [listCmp]
    cases h : c a b with
    | eq =>
      have hab := (hc a b).1 h
      subst hab
      rw [listCmp_eq_iff c hc as bs]
      simp
    | lt =>
      constructor
      · intro hcontra; cases hcontra
      · intro hcontra
        have : c a b = .eq := (hc a b).2 (by injection hcontra)
        rw [h] at this; cases this
    | gt =>
      constructor
      · intro hcontra; cases hcontra
      · intro hcontra
        have : c a b = .eq := (hc a b).2 (by injection hcontra)
        rw [h] at this; cases this

theorem listCmp_lt_iff_gt (c : α → α → Ordering)
    (hc : ∀ a b, c a b = .eq ↔ a = b)
    (hs : ∀ a b, c a b = .lt ↔ c b a = .gt) :
    ∀ x y, listCmp c x y = .lt ↔ listCmp c y x = .gt
  | [], [] => by simp [listCmp]
  | [], _ :: _ => by simp [listCmp]
  | _ :: _, [] => by simp [listCmp]
  | a :: as, b :: bs => by
    simp only [listCmp]
    cases h : c a b with
    | eq =>
      have hab := (hc a b).1 h
      subst hab
      have hrefl : c a a = .eq := (hc a a).2 rfl
      rw [hrefl]
      exact listCmp_lt_iff_gt c hc hs as bs
    | lt =>
      have h2 : c b a = .gt := (hs a b).1 h
      rw [h2]
      simp
    | gt =>
      have h2 : c b a = .lt := (hs b a).2 h
      rw [h2]
      constructor
      · intro hcontra; cases hcontra
      · intro hcontra; cases hcontra

theorem listCmp_lt_trans (c : α → α → Ordering)
    (hc : ∀ a b, c a b = .eq ↔ a = b)
    (ht : ∀ a b d, c a b = .lt → c b d = .lt → c a d = .lt) :
    ∀ x y z, listCmp c x y = .lt → listCmp c y z = .lt → listCmp c x z = .lt
  | [], [], _, h1, _ => by cases h1
  | [], _ :: _, [], _, h2 => by cases h2
  | [], _ :: _, _ :: _, _, _ => by simp [listCmp]
  | _ :: _, [], _, h1, _ => by cases h1
  | _ :: _, _ :: _, [], _, h2 => by cases h2
  | a :: as, b :: bs, d :: ds, h1, h2 => by
    simp only [listCmp] at h1 h2 ⊢
    cases hab : c a b with
    | eq =>
      have hb := (hc a b).1 hab
      subst hb
      rw [hab] at h1
      cases hbd : c a d with
      | eq =>
        have hd := (hc a d).1 hbd
        subst hd
        rw [hbd] at h2
        exact listCmp_lt_trans c hc ht as bs ds h1 h2
      | lt => rfl
      | gt => rw [hbd] at h2; simp at h2
    | lt =>
      cases hbd : c b d with
      | eq =>
        have hd := (hc b d).1 hbd
        subst hd
        rw [hab]
      | lt => rw [ht a b d hab hbd]
      | gt => rw [hbd] at h2; simp at h2
    | gt => rw [hab] at h1; simp at h1

theorem strCmp_eq_iff (a b : String) : strCmp a b = .eq ↔ a = b := by
  unfold strCmp
  rw [listCmp_eq_iff charCmp charCmp_eq_iff]
  constructor
  · intro h; exact String.ext h
  · intro h; rw [h]

theorem strCmp_lt_iff_gt (a b : String) : strCmp a b = .lt ↔ strCmp b a = .gt := by
  unfold strCmp
  exact listCmp_lt_iff_gt charCmp charCmp_eq_iff charCmp_lt_iff_gt _ _

theorem versionKeyCmp_eq_iff (a b : List String) :
    versionKeyCmp a b = .eq ↔ a = b := by
  unfold versionKeyCmp
  exact listCmp_eq_iff strCmp strCmp_eq_iff a b

theorem versionKeyCmp_lt_iff_gt (a b : List String) :
    versionKeyCmp a b = .lt ↔ versionKeyCmp b a = .gt := by
  unfold versionKeyCmp
  exact listCmp_lt_iff_gt strCmp strCmp_eq_iff strCmp_lt_iff_gt a b

/-! ### Claim C2 — `get_next_version` split and failure behavior -/

/-- Claim C2 states that `nextVersion` splits on the first `'~'` or `'-'`,
maps `"1.2.9-0ppa1"` to `"1.2.10-0ppa1"`, and raises GitError on a
non-numeric final component.  The source (gitutil.py 172-185, identically
gbputil.py 209-222) splits on `'~'` only — its own comment names the
`1.0-0ppa1` form — so `"1.2.9-0ppa1"` reaches `int("9-0ppa1")`, which
raises `ValueError`; the `except Error` clause does not catch `ValueError`
(it is not a subclass of the module's `Error`), contradicting the
docstring "Errors will be raised as GitError".  This theorem evaluates the
embedded source at the claim's own inputs: the plain case works, the
revision case and the non-numeric case fail with the unclassified
`ValueError`, and a `'~'` suffix is reattached with a changed `'-'`
separator. -/
theorem get_next_version_split_behavior :
    get_next_version "1.2.9" = .ok "1.2.10" ∧
    get_next_version "1.2.9-0ppa1" = .error .valueError ∧
    get_next_version "1.2.x" = .error .valueError ∧
    PyErr.isModuleError .valueError = false ∧
    get_next_version "1.2.9~0ppa1" = .ok "1.2.10-0ppa1" := by
  refine ⟨by decide, by decide, by decide, by decide, by decide⟩

/-! ### Claim C3 — `compare_versions` -/

/-- Claim C3 as written is false: `compare_versions` keys the sort by the
digit runs as STRINGS, so `"1.9"` sorts above `"1.10"` (`"9" > "10"`
lexicographically) although the integer sequences say otherwise, and two
distinct strings with identical digit-run sequences (here `"1.2"` and
`"1:2"`) compare as -1, not 0. -/
theorem compare_versions_int_claim_false :
    digitRunsAsInts "1.2" = digitRunsAsInts "1:2" ∧
    compare_versions "1.2" "1:2" ≠ 0 ∧
    digitRunsAsInts "1.9" = [1, 9] ∧
    digitRunsAsInts "1.10" = [1, 10] ∧
    compare_versions "1.9" "1.10" = 1 := by
  refine ⟨by decide, by decide, by decide, by decide, by decide⟩

/-- Claim C3, amended: `compare_versions` compares the digit-run sequences
element-wise as STRINGS (lexicographic code-point order, the Python sort
key being the list `findall(r'\d+', s)` of strings), and returns 0 exactly
when the two version strings are identical, -1 when the first input sorts
(weakly) first under that key, and 1 otherwise.  Reflexivity holds for
every `v`, and `compare_versions a b = -compare_versions b a` holds
whenever the digit-run sequences of `a` and `b` differ. -/
theorem compare_versions_string_key (a b : String) :
    compare_versions a a = 0 ∧
    (a ≠ b → compare_versions a b =
      (if versionKeyCmp (findallDigits b) (findallDigits a) = .lt
       then 1 else -1)) ∧
    (findallDigits a ≠ findallDigits b →
      compare_versions a b = - compare_versions b a) := by
  refine ⟨by simp [compare_versions], ?_, ?_⟩
  · intro hne
    unfold compare_versions
    split
    · simp [hne, Ne.symm hne]
    · simp [hne]
  · intro hk
    have hne : a ≠ b := fun h => hk (by rw [h])
    have hone : compare_versions a b =
        (if versionKeyCmp (findallDigits b) (findallDigits a) = .lt
         then 1 else -1) := by
      unfold compare_versions
      split
      · simp [hne, Ne.symm hne]
      · simp [hne]
    have htwo : compare_versions b a =
        (if versionKeyCmp (findallDigits a) (findallDigits b) = .lt
         then 1 else -1) := by
      unfold compare_versions
      split
      · simp [hne, Ne.symm hne]
      · simp [Ne.symm hne]
    rw [hone, htwo]
    cases hab : versionKeyCmp (findallDigits a) (findallDigits b) with
    | eq => exact absurd ((versionKeyCmp_eq_iff _ _).1 hab) hk
    | lt =>
      have hba : versionKeyCmp (findallDigits b) (findallDigits a) = .gt :=
        (versionKeyCmp_lt_iff_gt _ _).1 hab
      rw [hba]
      simp
    | gt =>
      have hba : versionKeyCmp (findallDigits b) (findallDigits a) = .lt :=
        (versionKeyCmp_lt_iff_gt _ _).2 hab
      rw [hba]
      simp

/-- Witness for the amended C3 theorem at the concrete pair
`"1.9"`, `"1.10"`, whose digit-run sequences differ. -/
theorem compare_versions_string_key_witness :
    compare_versions "1.9" "1.10" = - compare_versions "1.10" "1.9" :=
  (compare_versions_string_key "1.9" "1.10").2.2 (by decide)

/-! ### Claim C8 — `get_head_tag` (gitutil.py 82-100, identical logic in
gbputil.py 126-144)

The source sorts the matching HEAD tags ascending by
`[int(v) for v in s.split('/')[1].split('-')[0].split('.')]`
and returns element 0 — the SMALLEST-sorting tag.  The git interaction of
`get_head_tags` is external input; the list of matching tags is the
function's parameter here.
-/

/-- The sort key of `get_head_tag` (gitutil.py lines 95-96):
`[int(v) for v in s.split('/')[1].split('-')[0].split('.')]`.
`none` models the `IndexError`/`ValueError` cases where the tag has no
`'/'` or a component is not numeric. -/
def headTagKey (s : String) : Option (List Int) :=
  match (pySplit s '/').get? 1 with
  | none => none
  | some v => ((pySplit ((pySplit v '-').headD "") '.').mapM pyInt)

/-- Total version of `headTagKey` used once all keys are known to parse. -/
def tagKey (s : String) : List Int :=
  (headTagKey s).getD []

/-- Python comparison of two integer-list sort keys. -/
def intListCmp (a b : List Int) : Ordering :=
  listCmp intCmp a b

/-- Stable insertion of a tag into an ascending (by `tagKey`) list. -/
def insertTag (x : String) : List String → List String
  | [] => [x]
  | y :: ys =>
    if intListCmp (tagKey x) (tagKey y) = .lt then x :: y :: ys
    else y :: insertTag x ys

/-- Stable ascending sort by `tagKey`, modelling Python
`head_tags.sort(key=...)`. -/
def sortTags : List String → List String
  | [] => []
  | x :: xs => insertTag x (sortTags xs)

/-- Embeds `get_head_tag` (gitutil.py lines 82-100): if the matching HEAD
tag list is nonempty, sort it ascending by the packaging revision-aware
key and return element 0; otherwise raise GitError.  An unparseable key
raises `ValueError` during the sort. -/
def get_head_tag (head_tags : List String) : Except PyErr String :=
  if head_tags.isEmpty then .error .gitError
  else if head_tags.all (fun t => (headTagKey t).isSome) then
    .ok ((sortTags head_tags).headD "")
  else .error .valueError

theorem intListCmp_self (k : List Int) : intListCmp k k = .eq :=
  (listCmp_eq_iff intCmp intCmp_eq_iff k k).2 rfl

theorem intListCmp_lt_trans (a b c : List Int) (h1 : intListCmp a b = .lt)
    (h2 : intListCmp b c = .lt) : intListCmp a c = .lt :=
  listCmp_lt_trans intCmp intCmp_eq_iff intCmp_lt_trans a b c h1 h2

theorem mem_insertTag (x t : String) :
    ∀ l : List String, t ∈ insertTag x l ↔ t = x ∨ t ∈ l
  | [] => by simp [insertTag]
  | y :: ys => by
    unfold insertTag
    split
    · simp
    · simp only [List.mem_cons, mem_insertTag x t ys]
      tauto

theorem sortTags_min :
    ∀ l : List String, l ≠ [] →
      ∃ m rest, sortTags l = m :: rest ∧ m ∈ l ∧
        ∀ t ∈ l, intListCmp (tagKey t) (tagKey m) ≠ .lt
  | [], h => absurd rfl h
  | x :: xs, _ => by
    cases hxs : xs with
    | nil =>
      refine ⟨x, [], by simp [sortTags, insertTag], by simp, ?_⟩
      intro t ht
      simp at ht
      subst ht
      simp [intListCmp_self]
    | cons y ys =>
      obtain ⟨m', rest', hsort, hmem, hmin⟩ :=
        sortTags_min xs (by simp [hxs])
      rw [← hxs]
      unfold sortTags
      rw [hsort]
      unfold insertTag
      split
      · next hcmp =>
        refine ⟨x, m' :: rest', rfl, by simp, ?_⟩
        intro t ht
        rcases List.mem_cons.1 ht with h | h
        · subst h
          simp [intListCmp_self]
        · intro hlt
          exact hmin t h (intListCmp_lt_trans _ _ _ hlt hcmp)
      · next hcmp =>
        refine ⟨m', insertTag x rest', rfl, List.mem_cons_of_mem x hmem, ?_⟩
        intro t ht
        rcases List.mem_cons.1 ht with h | h
        · subst h
          exact hcmp
        · exact hmin t h

/-- Claim C8: when more than one tag of the required type points at a
branch HEAD, `get_head_tag` returns the tag whose version sorts LOWEST
under the packaging revision-aware key (split on `'-'`, numeric components
of the part before it): the returned tag is a member of the list and no
listed tag has a strictly smaller key. -/
theorem get_head_tag_picks_smallest (l : List String) (m : String)
    (h : get_head_tag l = .ok m) :
    m ∈ l ∧ ∀ t ∈ l, intListCmp (tagKey t) (tagKey m) ≠ .lt := by
  unfold get_head_tag at h
  split at h
  · cases h
  · next hne =>
    split at h
    · obtain ⟨m', rest, hsort, hmem, hmin⟩ :=
        sortTags_min l (by simpa [List.isEmpty_iff] using hne)
      have hm : m = m' := by
        injection h with h2
        rw [hsort] at h2
        simp at h2
        exact h2.symm
      subst hm
      exact ⟨hmem, hmin⟩
    · cases h

/-- Witness for C8 at a concrete HEAD-tag list with two matching tags:
the smaller-sorting `release/0.9` is returned, not the larger. -/
theorem get_head_tag_picks_smallest_witness :
    "release/0.9" ∈ ["release/1.10-1", "release/0.9", "release/1.2"] :=
  (get_head_tag_picks_smallest
    ["release/1.10-1", "release/0.9", "release/1.2"]
    "release/0.9" (by decide)).1

/-! ### Abstract repository state and the Repository Adapter
(gitutil.py 37-361)

The git backend is abstracted as a state record: the current branch, an
association list from branch names to HEAD commit ids (commit ids are
natural numbers, fresh ids issued from `nextCommit`), a flag `dirty` for
modifications to tracked files, a flag `untracked` for the presence of
untracked files (the porcelain status is nonempty when either holds), the
stash stack (newest first, entries carry the optional save message), and
the tag list.  File contents and checkout conflicts are not modelled, and
a stash re-applied after parking untracked files resurfaces coarsely as
`dirty`.  Every operation mirrors the structure of its Python source: the
read-only precondition (`check_git_rep` or the branch switch — except
`clean_repository`, which has none), then the native call guarded by
`Flag.SAFEMODE` where the source guards it.
-/

/-- Execution flags (gbpxargs.py `Flag`); only SAFEMODE drives behavior
in the embedded functions. -/
structure Flags where
  safemode : Bool
  verbose : Bool
  quiet : Bool
  color : Bool
  deriving Repr, DecidableEq

structure RepoState where
  isRepo : Bool
  currentBranch : String
  branches : List (String × Nat)
  dirty : Bool
  untracked : Bool
  stashes : List (Option String)
  tags : List (String × Nat)
  nextCommit : Nat
  deriving Repr, DecidableEq

/-- HEAD commit of a branch, when the branch exists. -/
def lookupBranch (s : RepoState) (b : String) : Option Nat :=
  s.branches.lookup b

/-- Sets a branch head, creating the entry when absent. -/
def setBranchHead (l : List (String × Nat)) (b : String) (c : Nat) :
    List (String × Nat) :=
  match l with
  | [] => [(b, c)]
  | (b', c') :: rest =>
    if b' = b then (b', c) :: rest else (b', c') :: setBranchHead rest b c

/-- Embeds `check_git_rep` (gitutil.py 37-45): `git status` fails outside
a repository and the failure is re-raised as GitError. -/
def check_git_rep (s : RepoState) : Except PyErr (Unit × RepoState) :=
  if s.isRepo then .ok ((), s) else .error .gitError

/-- Embeds `switch_branch` (gitutil.py 48-61).  Note: the source takes NO
flags argument — the checkout is never suppressed by safe-mode.  Any
checkout failure (here: unknown branch) is re-raised as GitError. -/
def switch_branch (branch : String) (s : RepoState) :
    Except PyErr (Unit × RepoState) :=
  match check_git_rep s with
  | .error e => .error e
  | .ok (_, s1) =>
    match lookupBranch s1 branch with
    | some _ => .ok ((), { s1 with currentBranch := branch })
    | none => .error .gitError

/-- Embeds `get_branch` (gitutil.py 201-211). -/
def get_branch (s : RepoState) : Except PyErr (String × RepoState) :=
  match check_git_rep s with
  | .error e => .error e
  | .ok (_, s1) => .ok (s1.currentBranch, s1)

/-- Embeds `get_head_commit` (gitutil.py 214-224): switches to the branch,
then reads its HEAD commit. -/
def get_head_commit (branch : String) (s : RepoState) :
    Except PyErr (Nat × RepoState) :=
  match switch_branch branch s with
  | .error e => .error e
  | .ok (_, s1) =>
    match lookupBranch s1 branch with
    | some c => .ok (c, s1)
    | none => .error .gitError

/-- Embeds `is_working_dir_clean` (gitutil.py 188-198): the porcelain
status lists both tracked-file modifications and untracked files. -/
def is_working_dir_clean (s : RepoState) :
    Except PyErr (Bool × RepoState) :=
  match check_git_rep s with
  | .error e => .error e
  | .ok (_, s1) => .ok (!(s1.dirty || s1.untracked), s1)

/-- Embeds `stash_changes` (gitutil.py 289-301): `git stash save
--include-untracked [name]`, guarded by safe-mode; it parks both the
tracked modifications and the untracked files.  With a clean tree git
saves nothing and succeeds. -/
def stash_changes (flags : Flags) (name : Option String) (s : RepoState) :
    Except PyErr (Unit × RepoState) :=
  match check_git_rep s with
  | .error e => .error e
  | .ok (_, s1) =>
    if flags.safemode then .ok ((), s1)
    else if s1.dirty || s1.untracked then
      .ok ((), { s1 with
        stashes := name :: s1.stashes
        dirty := false
        untracked := false })
    else .ok ((), s1)

/-- Removes the first stash entry whose saved name is `n`. -/
def dropStashNamed (n : String) : List (Option String) →
    List (Option String)
  | [] => []
  | e :: rest => if e = some n then rest else e :: dropStashNamed n rest

/-- Embeds `apply_stash` (gitutil.py 304-324): switches to the branch
(never suppressed), then — unless in safe-mode — applies the named stash
(or the top of the stack) and optionally drops it.  An empty stack or a
missing name fails as GitError.  The restored changes reappear in the
porcelain status; whether they were originally untracked is not tracked
per stash entry, so they resurface under `dirty`. -/
def apply_stash (flags : Flags) (branch : String) (name : Option String)
    (drop : Bool) (s : RepoState) : Except PyErr (Unit × RepoState) :=
  match switch_branch branch s with
  | .error e => .error e
  | .ok (_, s1) =>
    if flags.safemode then .ok ((), s1)
    else
      match name with
      | some n =>
        if (s1.stashes.contains (some n)) then
          .ok ((), { s1 with
            dirty := true
            stashes := if drop then dropStashNamed n s1.stashes
                       else s1.stashes })
        else .error .gitError
      | none =>
        match s1.stashes with
        | [] => .error .gitError
        | _ :: rest =>
          .ok ((), { s1 with
            dirty := true
            stashes := if drop then rest else s1.stashes })

/-- Embeds `commit_changes` (gitutil.py 275-286): `git add -A` (which
stages tracked modifications and untracked files alike) and
`git commit -m msg`, guarded by safe-mode; committing a clean tree fails
(git exits nonzero) and is re-raised as GitError. -/
def commit_changes (flags : Flags) (msg : String) (s : RepoState) :
    Except PyErr (Unit × RepoState) :=
  match check_git_rep s with
  | .error e => .error e
  | .ok (_, s1) =>
    if flags.safemode then .ok ((), s1)
    else if s1.dirty || s1.untracked then
      .ok ((), { s1 with
        branches := setBranchHead s1.branches s1.currentBranch s1.nextCommit
        dirty := false
        untracked := false
        nextCommit := s1.nextCommit + 1 })
    else .error .gitError

/-- Embeds `reset_branch` (gitutil.py 261-272): switches to the branch
(never suppressed), then — unless in safe-mode — hard-resets it to the
given commit, discarding tracked-file changes (untracked files survive a
hard reset). -/
def reset_branch (flags : Flags) (branch : String) (commit : Nat)
    (s : RepoState) : Except PyErr (Unit × RepoState) :=
  match switch_branch branch s with
  | .error e => .error e
  | .ok (_, s1) =>
    if flags.safemode then .ok ((), s1)
    else
      .ok ((), { s1 with
        branches := setBranchHead s1.branches branch commit
        dirty := false })

/-- Embeds `tag_head` (gitutil.py 340-351): switches to the branch (never
suppressed), then — unless in safe-mode — tags its HEAD; an existing tag
of the same name fails as GitError. -/
def tag_head (flags : Flags) (branch tag : String) (s : RepoState) :
    Except PyErr (Unit × RepoState) :=
  match switch_branch branch s with
  | .error e => .error e
  | .ok (_, s1) =>
    if flags.safemode then .ok ((), s1)
    else if (s1.tags.lookup tag).isSome then .error .gitError
    else
      .ok ((), { s1 with
        tags := (tag, (lookupBranch s1 branch).getD 0) :: s1.tags })

/-- Embeds `delete_tag` (gitutil.py 327-337), guarded by safe-mode. -/
def delete_tag (flags : Flags) (tag : String) (s : RepoState) :
    Except PyErr (Unit × RepoState) :=
  match check_git_rep s with
  | .error e => .error e
  | .ok (_, s1) =>
    if flags.safemode then .ok ((), s1)
    else if (s1.tags.lookup tag).isSome then
      .ok ((), { s1 with tags := s1.tags.filter (fun p => p.1 ≠ tag) })
    else .error .gitError

/-- Embeds `clean_repository` (gitutil.py 354-361): `git clean -fd`
(remove untracked files) and `-fX` (remove ignored files, which never
appear in the porcelain status), guarded by safe-mode.  The source
performs NO `check_git_rep`; outside a repository the native call itself
fails (a `fatal` marker, `CommandError` re-raised as GitError), but under
safe-mode even that is skipped and the call succeeds anywhere.  Tracked
modifications survive `git clean`. -/
def clean_repository (flags : Flags) (s : RepoState) :
    Except PyErr (Unit × RepoState) :=
  if flags.safemode then .ok ((), s)
  else if s.isRepo then .ok ((), { s with untracked := false })
  else .error .gitError

/-! ### Temporary-State Manager (gbpxutil.py 373-437) -/

/-- Restore data returned by `create_temp_commit`: the Python triple
`(branch, head_commit, stash_name)`. -/
structure RestorePoint where
  branch : String
  headCommit : Nat
  stashName : Option String
  deriving Repr, DecidableEq

/-- Embeds `create_temp_commit` (gbpxutil.py 373-410): records the current
branch and its HEAD commit; when the working tree is dirty, stashes all
changes under a name derived from the commit id, re-applies the stash
without dropping it and commits everything as a temp commit.  Any module
`Error` is re-raised as `OpError`. -/
def create_temp_commit (flags : Flags) (s : RepoState) :
    Except PyErr (RestorePoint × RepoState) :=
  match get_branch s with
  | .error _ => .error .opError
  | .ok (current_branch, s1) =>
    match get_head_commit current_branch s1 with
    | .error _ => .error .opError
    | .ok (head_commit, s2) =>
      match is_working_dir_clean s2 with
      | .error _ => .error .opError
      | .ok (clean, s3) =>
        if clean then .ok (⟨current_branch, head_commit, none⟩, s3)
        else
          let stash_name := "gbpx<" ++ toString head_commit ++ ">"
          match stash_changes flags (some stash_name) s3 with
          | .error _ => .error .opError
          | .ok (_, s4) =>
            match apply_stash flags current_branch none false s4 with
            | .error _ => .error .opError
            | .ok (_, s5) =>
              match commit_changes flags
                  ("Temp " ++ current_branch ++ " commit.") s5 with
              | .error _ => .error .opError
              | .ok (_, s6) =>
                .ok (⟨current_branch, head_commit, some stash_name⟩, s6)

/-- Embeds `restore_temp_commit` (gbpxutil.py 413-437): switches back to
the recorded branch when not already there; when a stash name was
recorded, hard-resets the branch to the recorded commit and re-applies
and drops the stash.  Any module `Error` is re-raised as `OpError`. -/
def restore_temp_commit (flags : Flags) (restore_data : RestorePoint)
    (s : RepoState) : Except PyErr (Unit × RepoState) :=
  match get_branch s with
  | .error _ => .error .opError
  | .ok (cur, s1) =>
    match
      (if restore_data.branch ≠ cur then
        switch_branch restore_data.branch s1
      else .ok ((), s1)) with
    | .error _ => .error .opError
    | .ok (_, s2) =>
      match restore_data.stashName with
      | none => .ok ((), s2)
      | some _ =>
        match reset_branch flags restore_data.branch
            restore_data.headCommit s2 with
        | .error _ => .error .opError
        | .ok (_, s3) =>
          match apply_stash flags restore_data.branch none true s3 with
          | .error _ => .error .opError
          | .ok (_, s4) => .ok ((), s4)

/-! ### Claim C4 — `restore_temp_commit` with no stash name -/

/-- Concrete states for the C4 and C5 theorems. -/
def plainFlags : Flags := ⟨false, false, false, false⟩

def safeFlags : Flags := ⟨true, false, false, false⟩

def twoBranchState : RepoState :=
  { isRepo := true
    currentBranch := "debian"
    branches := [("master", 1), ("debian", 2)]
    dirty := false
    untracked := false
    stashes := []
    tags := []
    nextCommit := 3 }

/-- Claim C4 as written is false: on a RestorePoint with no stash name,
`restore_temp_commit` still performs the branch restore, so called while
`debian` is checked out with a RestorePoint recording `master` it changes
the repository state (the checked-out branch). -/
theorem restore_temp_commit_noop_claim_false :
    restore_temp_commit plainFlags ⟨"master", 1, none⟩ twoBranchState =
      .ok ((), { twoBranchState with currentBranch := "master" }) ∧
    { twoBranchState with currentBranch := "master" } ≠ twoBranchState := by
  refine ⟨by decide, by decide⟩

/-- Claim C4, amended: `restore_temp_commit` on a RestorePoint with no
stash name performs ONLY the branch restore.  It is a no-op that succeeds
when the current branch is already the recorded branch; in general (when
the recorded branch exists) it succeeds and changes exactly the
checked-out branch, and the stash/reset steps are skipped. -/
theorem restore_temp_commit_no_stash (flags : Flags) (rp : RestorePoint)
    (s : RepoState) (hstash : rp.stashName = none)
    (hrepo : s.isRepo = true) :
    (s.currentBranch = rp.branch →
      restore_temp_commit flags rp s = .ok ((), s)) ∧
    ((lookupBranch s rp.branch).isSome = true →
      restore_temp_commit flags rp s =
        .ok ((), { s with currentBranch := rp.branch })) := by
  constructor
  · intro hcur
    simp [restore_temp_commit, get_branch, check_git_rep, hrepo, hcur, hstash]
  · intro hb
    by_cases hcur : s.currentBranch = rp.branch
    · have hs : { s with currentBranch := rp.branch } = s := by
        cases s
        simp_all
      rw [hs]
      simp [restore_temp_commit, get_branch, check_git_rep, hrepo, hcur,
        hstash]
    · obtain ⟨c, hc⟩ := Option.isSome_iff_exists.1 hb
      simp [restore_temp_commit, get_branch, check_git_rep, hrepo, hstash,
        switch_branch, lookupBranch, Ne.symm hcur] at *
      simp [hc]

/-- Witness for the amended C4 theorem: called on the recorded branch with
no stash name, the call is a no-op. -/
theorem restore_temp_commit_no_stash_witness :
    restore_temp_commit plainFlags ⟨"debian", 2, none⟩ twoBranchState =
      .ok ((), twoBranchState) :=
  (restore_temp_commit_no_stash plainFlags ⟨"debian", 2, none⟩ twoBranchState
    (by decide) (by decide)).1 (by decide)

/-! ### Claim C5 — safe-mode and the mutating adapter operations -/

/-- Claim C5 as written is false: `switch_branch` (gitutil.py 48-61) takes
no flags argument at all, so the checkout it performs is never suppressed
by safe-mode and the repository state (the checked-out branch) changes. -/
theorem switch_branch_ignores_safemode :
    switch_branch "master" twoBranchState =
      .ok ((), { twoBranchState with currentBranch := "master" }) ∧
    { twoBranchState with currentBranch := "master" } ≠ twoBranchState := by
  refine ⟨by decide, by decide⟩

/-- Claim C5, amended: under safe-mode the guarded native mutations are
all skipped — commit, stash, stash apply, hard reset, tag, tag delete and
clean leave the repository content unchanged (without safe-mode, clean
really removes the untracked files) — but branch switching is not
suppressed: `switch_branch` receives no flags, and the operations that
target a branch (stash apply, hard reset, tag) still change the
checked-out branch through their built-in switch.  The read-only
repository-validity check is still performed by every one of these
operations EXCEPT clean — commit, stash and tag delete check through
`check_git_rep`, stash apply, hard reset and tag through their built-in
branch switch, and all of them fail on a non-repository — while
`clean_repository` performs no repository check at all, so under
safe-mode it succeeds even outside a repository. -/
theorem safemode_mutating_ops (flags : Flags) (hsafe : flags.safemode = true)
    (s : RepoState) (hrepo : s.isRepo = true)
    (b : String) (hb : (lookupBranch s b).isSome = true)
    (msg tg : String) (nm : Option String) (dr : Bool) (cm : Nat)
    (sbad : RepoState) (hbad : sbad.isRepo = false) :
    commit_changes flags msg s = .ok ((), s) ∧
    stash_changes flags nm s = .ok ((), s) ∧
    delete_tag flags tg s = .ok ((), s) ∧
    clean_repository flags s = .ok ((), s) ∧
    apply_stash flags b nm dr s = .ok ((), { s with currentBranch := b }) ∧
    reset_branch flags b cm s = .ok ((), { s with currentBranch := b }) ∧
    tag_head flags b tg s = .ok ((), { s with currentBranch := b }) ∧
    commit_changes flags msg sbad = .error .gitError ∧
    stash_changes flags nm sbad = .error .gitError ∧
    delete_tag flags tg sbad = .error .gitError ∧
    switch_branch b sbad = .error .gitError ∧
    apply_stash flags b nm dr sbad = .error .gitError ∧
    reset_branch flags b cm sbad = .error .gitError ∧
    tag_head flags b tg sbad = .error .gitError ∧
    clean_repository flags sbad = .ok ((), sbad) ∧
    clean_repository plainFlags s = .ok ((), { s with untracked := false }) := by
  obtain ⟨c, hc⟩ := Option.isSome_iff_exists.1 hb
  refine ⟨?_, ?_, ?_, ?_, ?_, ?_, ?_, ?_, ?_, ?_, ?_, ?_, ?_, ?_, ?_, ?_⟩ <;>
    simp [commit_changes, stash_changes, delete_tag, clean_repository,
      apply_stash, reset_branch, tag_head, switch_branch, check_git_rep,
      plainFlags, hsafe, hrepo, hbad, hc]

/-- Witness for the amended C5 theorem at a concrete safe-mode call. -/
theorem safemode_mutating_ops_witness :
    commit_changes safeFlags "m" twoBranchState = .ok ((), twoBranchState) :=
  (safemode_mutating_ops safeFlags (by decide) twoBranchState (by decide)
    "master" (by decide) "m" "t" none false 0
    { twoBranchState with isRepo := false } (by decide)).1

/-! ### Action Execution Engine data (gbpx.py 46-75, gbpxargs.py) -/

/-- Configuration setting identifiers (gbpxutil.py `Setting`). -/
inductive Setting where
  | RELEASE_BRANCH
  | RELEASE_TAG_TYPE
  | UPSTREAM_BRANCH
  | UPSTREAM_TAG_TYPE
  | DEBIAN_BRANCH
  | DEBIAN_TAG_TYPE
  | GPG_KEY_ID
  | BUILD_FLAGS
  | TEST_BUILD_FLAGS
  | BUILD_CMD
  | PACKAGE_NAME
  | DISTRIBUTION
  | URGENCY
  | DEBIAN_VERSION_SUFFIX
  | EXCLUDE_FILES
  | PPA_NAME
  | EDITOR_CMD
  deriving Repr, DecidableEq

/-- Action identifiers (gbpxargs.py `Action`). -/
inductive Action where
  | TEST_PKG
  | COMMIT_RELEASE
  | UPDATE_CHANGELOG
  | TEST_BUILD
  | COMMIT_BUILD
  | UPLOAD
  | CLONE
  | RESTORE
  | CONFIG
  deriving Repr, DecidableEq

/-- Action execution configuration (gbpx.py `_ActionConf`, lines 46-56);
`critical_branches=None` becomes the empty list. -/
structure ActionConf where
  is_repository_based : Bool
  clean : Bool
  restore_backup : Bool
  critical_branches : List Setting
  deriving Repr, DecidableEq

/-- Embeds `_ACTION_CONF` (gbpx.py lines 59-75). -/
def actionConf : Action → ActionConf
  | .TEST_PKG => ⟨true, true, true, []⟩
  | .COMMIT_RELEASE =>
    ⟨true, true, false, [.RELEASE_BRANCH, .UPSTREAM_BRANCH, .DEBIAN_BRANCH]⟩
  | .UPDATE_CHANGELOG => ⟨true, true, false, [.DEBIAN_BRANCH]⟩
  | .TEST_BUILD => ⟨true, true, false, []⟩
  | .COMMIT_BUILD => ⟨true, true, false, [.DEBIAN_BRANCH]⟩
  | .UPLOAD => ⟨true, false, false, []⟩
  | .CLONE => ⟨false, false, false, []⟩
  | .RESTORE => ⟨false, false, false, []⟩
  | .CONFIG => ⟨false, false, false, []⟩

/-! ### Claim C1 — the critical-branch conflict check of `_exec_init`
(gbpx.py 298-356)

After `create_temp_commit`, `_exec_init` switches to `_MASTER_BRANCH`
("master") to read the config, so the later `get_branch()` of the
conflict check always returns "master" — it is compared with the resolved
critical branch names instead of `restore_data[0]`, the branch the parked
changes were on (which the earlier iteration, src/gbphelper.py lines
600-618, compared).  Loading the configuration itself is an external
collaborator; the loaded branch names are the `conf` parameter.
-/

/-- Embeds `_exec_init` (gbpx.py lines 298-356).  Returns the pair
`(run_action, restore_data)` (the configuration is the input `conf`). -/
def exec_init (flags : Flags) (action : Action) (conf : Setting → String)
    (s : RepoState) :
    Except PyErr ((Bool × Option RestorePoint) × RepoState) :=
  if (actionConf action).is_repository_based then
    match create_temp_commit flags s with
    | .error _ => .error .opError
    | .ok (restore_data, s1) =>
      let changes_committed := restore_data.stashName.isSome
      match switch_branch "master" s1 with
      | .error _ => .error .opError
      | .ok (_, s2) =>
        let s3 :=
          if (actionConf action).clean then
            match clean_repository flags s2 with
            | .ok (_, s') => s'
            | .error _ => s2
          else s2
        if changes_committed then
          match get_branch s3 with
          | .error e => .error e
          | .ok (cur, s4) =>
            if cur ∈ (actionConf action).critical_branches.map conf then
              .ok ((false, some restore_data), s4)
            else
              .ok ((true, some restore_data), s4)
        else .ok ((true, some restore_data), s3)
  else .ok ((true, none), s)

/-- The C1 failing input: uncommitted changes on the `debian` branch and
the `commit-build` action, whose critical branches resolve to
`["debian"]`. -/
def c1State : RepoState :=
  { isRepo := true
    currentBranch := "debian"
    branches := [("master", 1), ("upstream", 2), ("debian", 3)]
    dirty := true
    untracked := false
    stashes := []
    tags := []
    nextCommit := 10 }

def c1Conf : Setting → String := fun st =>
  match st with
  | .RELEASE_BRANCH => "master"
  | .UPSTREAM_BRANCH => "upstream"
  | .DEBIAN_BRANCH => "debian"
  | _ => ""

/-- Claim C1 evaluated at the failing input: the temp commit parks real
changes from the critical `debian` branch (the returned stash name is
set and the restore point records `debian`, which is listed in the
resolved critical branches of `commit-build`), yet `run_action` comes
back `true` — the conflict check compares the post-switch current branch
("master") instead of the parked branch, so the engine does NOT refuse
the action. -/
theorem exec_init_critical_check_misses_parked_branch :
    exec_init plainFlags Action.COMMIT_BUILD c1Conf c1State =
      .ok ((true, some ⟨"debian", 3, some "gbpx<3>"⟩),
        { isRepo := true
          currentBranch := "master"
          branches := [("master", 1), ("upstream", 2), ("debian", 10)]
          dirty := false
          untracked := false
          stashes := [some "gbpx<3>"]
          tags := []
          nextCommit := 11 }) ∧
    "debian" ∈ (actionConf Action.COMMIT_BUILD).critical_branches.map c1Conf := by
  refine ⟨by decide, by decide⟩

/-! ### Claims C6 and C7 — the phase structure of `_execute`
(gbpx.py 183-266)

The engine events are modelled as a trace; the outcome of every
collaborating step (backup archiving, init phase, action body, backup
restore, temp-commit restore) is a boolean input, and the definitions
mirror the `try`/`except OpError` control flow of `_execute`.
-/

inductive ExecEvent where
  | savedBackup
  | backupFailedQuit
  | ranBody
  | restoredBackup
  | backupRestoreFailed
  | restoredTempCommit
  | tempRestoreFailed
  | skipRestoreDisabled
  | noRestoreNeeded
  deriving Repr, DecidableEq

/-- Success-path restore of `_execute` (gbpx.py 232-248): force-restore
the backup when the action configuration demands it, otherwise restore
the temp commit for repository-based actions; either failure is logged,
not re-raised. -/
def successRestoreEvents (c : ActionConf) (restoreBakOk tempOk : Bool) :
    List ExecEvent :=
  if c.restore_backup then
    if restoreBakOk then [.restoredBackup] else [.backupRestoreFailed]
  else if c.is_repository_based then
    if tempOk then [.restoredTempCommit] else [.tempRestoreFailed]
  else []

/-- Error-recovery branch of `_execute` (`except OpError`, gbpx.py
249-266): repository-based with the no-restore option set skips the
rollback with a message; otherwise `restore_backup` is attempted once and
a failure only reported; non-repository actions need no restore. -/
def exceptEvents (c : ActionConf) (noRestore restoreBakOk : Bool) :
    List ExecEvent :=
  if c.is_repository_based then
    if noRestore then [.skipRestoreDisabled]
    else if restoreBakOk then [.restoredBackup] else [.backupRestoreFailed]
  else [.noRestoreNeeded]

/-- Body of the `try` block of `_execute` (gbpx.py 223-248): the init
phase, the action body when `run_action` allows it, then the success-path
restore; the second component records whether `OpError` escaped to the
handler. -/
def tryEvents (c : ActionConf) (initOk runAction bodyOk restoreBakOk tempOk :
    Bool) : List ExecEvent × Bool :=
  if !initOk then ([], true)
  else
    let bodyEvs := if runAction then [ExecEvent.ranBody] else []
    if runAction && !bodyOk then (bodyEvs, true)
    else (bodyEvs ++ successRestoreEvents c restoreBakOk tempOk, false)

/-- Embeds the phase structure of `_execute` (gbpx.py 183-266): backup
first for repository-based actions (a backup failure quits before any
action), then the `try` body, then the `except OpError` recovery when the
body raised. -/
def execPhases (c : ActionConf)
    (noRestore backupOk initOk runAction bodyOk restoreBakOk tempOk : Bool) :
    List ExecEvent :=
  if c.is_repository_based && !backupOk then [.backupFailedQuit]
  else
    let pre := if c.is_repository_based then [ExecEvent.savedBackup] else []
    let t := tryEvents c initOk runAction bodyOk restoreBakOk tempOk
    pre ++ t.1 ++ (if t.2 then exceptEvents c noRestore restoreBakOk else [])

/-- Claim C6: when the action body fails with `OpError`, a
repository-based action with the no-restore flag set skips the rollback
and reports the manual-restore route; without the flag `restoreBackup` is
attempted exactly once, a failure of the attempt being reported and not
retried; a non-repository action performs no restore and reports "no
restore action needed". -/
theorem execPhases_on_failure (c : ActionConf)
    (noRestore restoreBakOk tempOk : Bool) :
    execPhases c noRestore true true true false restoreBakOk tempOk =
      (if c.is_repository_based then [ExecEvent.savedBackup] else []) ++
      [ExecEvent.ranBody] ++
      (if c.is_repository_based then
        (if noRestore then [ExecEvent.skipRestoreDisabled]
         else if restoreBakOk then [ExecEvent.restoredBackup]
         else [ExecEvent.backupRestoreFailed])
       else [ExecEvent.noRestoreNeeded]) := by
  cases hc : c.is_repository_based <;> cases noRestore <;>
    cases restoreBakOk <;>
    simp [execPhases, tryEvents, exceptEvents, successRestoreEvents, hc]

/-- Claim C7: when the action body succeeds, an action configured with
`restore_backup` (the `test-pkg` action is the one so configured)
force-restores the pre-action backup and never runs the temp-commit
restore; with `restore_backup` false only the temp-commit restore runs
(for repository-based actions), and no backup restore happens. -/
theorem execPhases_on_success (c : ActionConf)
    (noRestore restoreBakOk tempOk : Bool) :
    (execPhases c noRestore true true true true restoreBakOk tempOk =
      (if c.is_repository_based then [ExecEvent.savedBackup] else []) ++
      [ExecEvent.ranBody] ++
      (if c.restore_backup then
        (if restoreBakOk then [ExecEvent.restoredBackup]
         else [ExecEvent.backupRestoreFailed])
       else if c.is_repository_based then
        (if tempOk then [ExecEvent.restoredTempCommit]
         else [ExecEvent.tempRestoreFailed])
       else [])) ∧
    ((execPhases c noRestore true true true true restoreBakOk
        tempOk).contains .restoredTempCommit =
      (!c.restore_backup && c.is_repository_based && tempOk)) ∧
    ((execPhases c noRestore true true true true restoreBakOk
        tempOk).contains .restoredBackup =
      (c.restore_backup && restoreBakOk)) ∧
    actionConf Action.TEST_PKG = ⟨true, true, true, []⟩ ∧
    (actionConf Action.COMMIT_BUILD).restore_backup = false := by
  refine ⟨?_, ?_, ?_, by decide, by decide⟩ <;>
    cases hr : c.is_repository_based <;> cases hb : c.restore_backup <;>
    cases restoreBakOk <;> cases tempOk <;>
    simp [execPhases, tryEvents, exceptEvents, successRestoreEvents, hr, hb]

/-! ### Claim C10 — `get_config` (gbpxutil.py 203-240)

The parsed configuration file is modelled as a lookup from setting to the
raw configparser result: the key can be missing (`KeyError`), present
with no value (configparser yields Python `None`, and `str(None)` is the
string "None"), or present with a string value.  The conversion functions
of the `_CONFIG` table (gbpxutil.py 137-165) are either `str` or the
excludeFiles lambda splitting on commas.  The file-existence check and
parse are outside the embedding: the claim quantifies over successful
loads.
-/

inductive SectionId where
  | GIT
  | SIGNING
  | BUILD
  | PACKAGE
  | UPLOAD
  | SYSTEM
  deriving Repr, DecidableEq

/-- Raw configparser lookup result for a key. -/
inductive RawVal where
  | missing
  | novalue
  | val (s : String)
  deriving Repr, DecidableEq

/-- A loaded configuration value: Python `None`, a string, or the list
produced by the excludeFiles conversion. -/
inductive ConfVal where
  | none
  | str (s : String)
  | strList (l : List String)
  deriving Repr, DecidableEq

/-- The two conversion functions appearing in `_CONFIG`. -/
inductive ConvertKind where
  | toStr
  | toStrList
  deriving Repr, DecidableEq

/-- Setting configuration (gbpxutil.py `_BaseSetting`, lines 118-133). -/
structure BaseSetting where
  default : ConfVal
  sectionId : SectionId
  required : Bool
  convert : ConvertKind
  deriving Repr, DecidableEq

/-- Embeds the `_CONFIG` table (gbpxutil.py lines 137-165);
`DEFAULT_CONFIG_PATH` is "gbpx.conf". -/
def settingConf : Setting → BaseSetting
  | .RELEASE_BRANCH => ⟨.str "master", .GIT, true, .toStr⟩
  | .RELEASE_TAG_TYPE => ⟨.str "release", .GIT, true, .toStr⟩
  | .UPSTREAM_BRANCH => ⟨.str "upstream", .GIT, true, .toStr⟩
  | .UPSTREAM_TAG_TYPE => ⟨.str "upstream", .GIT, true, .toStr⟩
  | .DEBIAN_BRANCH => ⟨.str "debian", .GIT, true, .toStr⟩
  | .DEBIAN_TAG_TYPE => ⟨.str "debian", .GIT, true, .toStr⟩
  | .GPG_KEY_ID => ⟨.none, .SIGNING, false, .toStr⟩
  | .BUILD_FLAGS => ⟨.none, .BUILD, false, .toStr⟩
  | .TEST_BUILD_FLAGS => ⟨.none, .BUILD, false, .toStr⟩
  | .BUILD_CMD => ⟨.str "debuild", .BUILD, true, .toStr⟩
  | .PACKAGE_NAME => ⟨.none, .PACKAGE, false, .toStr⟩
  | .DISTRIBUTION => ⟨.none, .PACKAGE, false, .toStr⟩
  | .URGENCY => ⟨.str "low", .PACKAGE, false, .toStr⟩
  | .DEBIAN_VERSION_SUFFIX => ⟨.str "-0ppa1", .PACKAGE, false, .toStr⟩
  | .EXCLUDE_FILES =>
    ⟨.str "gbpx.conf,README.md,LICENSE", .PACKAGE, false, .toStrList⟩
  | .PPA_NAME => ⟨.none, .UPLOAD, false, .toStr⟩
  | .EDITOR_CMD => ⟨.str "editor", .SYSTEM, true, .toStr⟩

/-- Every setting, in table order. -/
def allSettings : List Setting :=
  [.RELEASE_BRANCH, .RELEASE_TAG_TYPE, .UPSTREAM_BRANCH, .UPSTREAM_TAG_TYPE,
   .DEBIAN_BRANCH, .DEBIAN_TAG_TYPE, .GPG_KEY_ID, .BUILD_FLAGS,
   .TEST_BUILD_FLAGS, .BUILD_CMD, .PACKAGE_NAME, .DISTRIBUTION, .URGENCY,
   .DEBIAN_VERSION_SUFFIX, .EXCLUDE_FILES, .PPA_NAME, .EDITOR_CMD]

/-- Application of a `_CONFIG` conversion function to the string form of
the raw value (`str(None)` is "None" when the key carries no value). -/
def convertVal : ConvertKind → String → ConfVal
  | .toStr, s => .str s
  | .toStrList, s => .strList ((pySplit s ',').map pyStrip)

/-- The per-setting body of the `get_config` loop (gbpxutil.py 218-234):
convert the raw value (a `KeyError` yields Python `None`), fall back to
the default when the result is `None` or the empty string, and fail with
`ConfigError` when a required setting has no usable value. -/
def resolveSetting (file : Setting → RawVal) (k : Setting) :
    Except PyErr ConfVal :=
  let sc := settingConf k
  let v : ConfVal :=
    match file k with
    | .missing => .none
    | .novalue => convertVal sc.convert "None"
    | .val s => convertVal sc.convert s
  if v = .none ∨ v = .str "" then
    if sc.required then .error .configError else .ok sc.default
  else .ok v

/-- Embeds `get_config` (gbpxutil.py lines 203-240): resolve every
setting (any required setting without a usable value aborts the load with
`ConfigError`), then replace a still-`None` packageName with the basename
of the current working directory. -/
def get_config (file : Setting → RawVal) (cwdBasename : String) :
    Except PyErr (Setting → ConfVal) :=
  if allSettings.all (fun k => (resolveSetting file k).toOption.isSome) then
    let conf : Setting → ConfVal :=
      fun k => ((resolveSetting file k).toOption).getD .none
    .ok (fun k =>
      if k = Setting.PACKAGE_NAME then
        match conf Setting.PACKAGE_NAME with
        | .none => .str cwdBasename
        | v => v
      else conf k)
  else .error .configError

/-- The configuration a successful `get_config` returned. -/
def loadedConf (file : Setting → RawVal) (cwdBasename : String) :
    Setting → ConfVal :=
  ((get_config file cwdBasename).toOption).getD (fun _ => ConfVal.none)

/-- Claim C10: whenever `get_config` loads a file successfully, the
returned packageName is never `None` — when the key is missing from the
file or holds the empty string, the basename of the current working
directory is substituted. -/
theorem get_config_packageName (file : Setting → RawVal)
    (cwdBasename : String)
    (h : (get_config file cwdBasename).toOption.isSome = true) :
    loadedConf file cwdBasename .PACKAGE_NAME ≠ .none ∧
    ((file .PACKAGE_NAME = .missing ∨ file .PACKAGE_NAME = .val "") →
      loadedConf file cwdBasename .PACKAGE_NAME = .str cwdBasename) := by
  unfold loadedConf get_config
  unfold get_config at h
  split at h
  · next hall =>
    rw [if_pos hall]
    simp only [Except.toOption, Option.getD]
    constructor
    · cases hraw : file Setting.PACKAGE_NAME with
      | missing => simp [resolveSetting, settingConf, convertVal, hraw]
      | novalue => simp [resolveSetting, settingConf, convertVal, hraw]
      | val s =>
        by_cases hs : s = ""
        · simp [resolveSetting, settingConf, convertVal, hraw, hs]
        · simp [resolveSetting, settingConf, convertVal, hraw, hs]
    · intro hcase
      rcases hcase with hraw | hraw
      · simp [resolveSetting, settingConf, convertVal, hraw]
      · simp [resolveSetting, settingConf, convertVal, hraw]
  · next hall => simp [Except.toOption] at h

/-- A concrete parsed file for the C10 witness: every required setting
present, packageName absent. -/
def c10File : Setting → RawVal := fun k =>
  if (settingConf k).required then .val "v" else .missing

/-- Witness for C10: with packageName missing from the file, the load
succeeds and packageName is the directory basename (never `None`). -/
theorem get_config_packageName_witness :
    loadedConf c10File "mypkg" .PACKAGE_NAME ≠ .none ∧
    ((c10File .PACKAGE_NAME = .missing ∨ c10File .PACKAGE_NAME = .val "") →
      loadedConf c10File "mypkg" .PACKAGE_NAME = .str "mypkg") :=
  get_config_packageName c10File "mypkg" (by decide)

/-! ### Claim C9 — the backup file name of `add_backup`
(gbpxutil.py 440-468) and the timestamp parse of `restore_backup`
(gbpxutil.py 471-542)
-/

/-- Python single-character `str.replace`. -/
def pyReplaceChar (s : String) (a b : Char) : String :=
  String.mk (s.data.map (fun c => if c = a then b else c))

def bakFileExt : String := ".bak.tar.gz"

/-- Embeds the file-name computation of `add_backup` (gbpxutil.py lines
447-456).  The source executes `name.replace` with underscore and dash as
a bare statement and DISCARDS the returned string (Python strings are
immutable), so the caller-supplied name is used unsanitized in the format
`name_timestamp + ext`.  The strftime timestamp
("%Y-%m-%d-%H-%M-%S") is a parameter. -/
def add_backup_tar_name (name timestamp : String) : String :=
  let _sanitized := pyReplaceChar name '_' '-'
  name ++ "_" ++ timestamp ++ bakFileExt

/-- Spec-side definition for claim C9: the file name as the claim
describes it, with the underscores of `name` replaced BEFORE use. -/
def sanitized_tar_name (name timestamp : String) : String :=
  pyReplaceChar name '_' '-' ++ "_" ++ timestamp ++ bakFileExt

/-- The timestamp key `restore_backup` parses out of a backup file name
(gbpxutil.py lines 494-497): field 1 of the underscore split, stripped of
the extension at the first dot, split on dashes and read as integers. -/
def restore_backup_sort_key (bak_f : String) : Option (List Int) :=
  ((pySplit ((pySplit ((pySplit bak_f '_').getD 1 "") '.').headD "") '-').mapM
    pyInt)

/-- Claim C9 evaluated at the failing input `name = "my_pkg"`: the name
keeps its underscore, so the timestamp is NOT the first
underscore-delimited field after the name and `restore_backup`'s
timestamp parse fails on the produced file name, while the sanitized name
the claim (and the source's own comment) promises parses fine. -/
theorem add_backup_underscore_unsanitized :
    add_backup_tar_name "my_pkg" "2026-10-12-08-00-00" =
      "my_pkg_2026-10-12-08-00-00.bak.tar.gz" ∧
    (pySplit (add_backup_tar_name "my_pkg" "2026-10-12-08-00-00") '_').getD
      1 "" = "pkg" ∧
    restore_backup_sort_key
      (add_backup_tar_name "my_pkg" "2026-10-12-08-00-00") = Option.none ∧
    sanitized_tar_name "my_pkg" "2026-10-12-08-00-00" =
      "my-pkg_2026-10-12-08-00-00.bak.tar.gz" ∧
    restore_backup_sort_key
      (sanitized_tar_name "my_pkg" "2026-10-12-08-00-00") =
      some [2026, 10, 12, 8, 0, 0] := by
  refine ⟨by decide, by decide, by decide, by decide, by decide⟩

end Gbpx
